import Mathlib

/-
Verification of the `astro.config.mjs` build-tool configuration module of the
biralo-studio/astro-template repository, together with a small metadata model
of the repository's provided material (the configuration module and the
companion markdown conventions document).

The configuration module reads, in full (quoted lines marked with |):

  | import { defineConfig } from 'astro/config';
  | import svelte from '@astrojs/svelte';
  | import { fileURLToPath } from 'url';
  | import path from 'path';

  const __dirname = path.dirname(fileURLToPath(import.meta.url));

  export default defineConfig({
    integrations: [svelte()],
    vite: {
      css: {
        preprocessorOptions: {
          scss: {
            api: 'modern-compiler',
            loadPaths: [path.resolve(__dirname, 'src/styles')],
            additionalData: `@use "utils" as *;`
          }
        }
      }
    }
  });

The external Node `url`/`path` helpers and Astro's `defineConfig`/`svelte`
are modelled from their documented behaviour on the inputs this module can
feed them; the module body itself is embedded statement for statement.
-/

namespace AstroTemplate

/-! ### Models of the Node `url` and `path` library functions -/

/-- A path is absolute when its first character is the separator `/`
(POSIX semantics, which is what Node's `path.isAbsolute` implements
on non-Windows platforms). -/
def isAbsoluteChars (s : List Char) : Bool :=
  decide (s.head? = some '/')

/-- Everything before the last `/` of the character list, or `none` when the
list contains no `/` at all.  This is the segment-dropping core of Node's
`path.dirname`. -/
def dropLastSegment : List Char → Option (List Char)
  | [] => none
  | c :: rest =>
    match dropLastSegment rest with
    | none => if c = '/' then some [] else none
    | some d => some (c :: d)

/-- Model of Node's `path.dirname` for paths that do not end in a separator:
the portion before the final `/`, with the conventional answers `"."` when no
separator occurs and `"/"` when the only separator is the leading root. -/
def dirnameChars (s : List Char) : List Char :=
  match dropLastSegment s with
  | none => ['.']
  | some [] => ['/']
  | some d => d

/-- String-level wrapper for `dirnameChars`, the model of `path.dirname`. -/
def Path.dirname (s : String) : String :=
  ⟨dirnameChars s.data⟩

/-- String-level wrapper for `isAbsoluteChars`. -/
def Path.isAbsolute (s : String) : Bool :=
  isAbsoluteChars s.data

/-- Model of the two-argument use of Node's `path.resolve`: an absolute
second argument wins, otherwise it is joined onto the first with a `/`
(the configuration module only ever calls it with an absolute first argument
and the relative literal `'src/styles'`, so the cwd fallback and segment
normalisation of the full Node function are never exercised). -/
def Path.resolve (base rel : String) : String :=
  if Path.isAbsolute rel then rel else ⟨base.data ++ '/' :: rel.data⟩

/-- The seven characters `file://` opening a file URL with empty authority. -/
def fileURLPrefix : List Char := ['f', 'i', 'l', 'e', ':', '/', '/']

/-- Model of Node's `url.fileURLToPath` restricted to the empty-authority
`file:///...` URLs produced for local modules: it strips the `file://`
scheme-and-authority prefix and keeps the absolute path, and it fails
(Node throws a `TypeError`) on anything that is not such a file URL. -/
def fileURLToPathChars (l : List Char) : Option (List Char) :=
  if l.take 7 = fileURLPrefix ∧ (l.drop 7).head? = some '/' then
    some (l.drop 7)
  else
    none

/-- String-level wrapper for `fileURLToPathChars`. -/
def fileURLToPath? (url : String) : Option String :=
  (fileURLToPathChars url.data).map fun l => String.mk l

/-- A well-formed local module URL: a `file://` URL with empty authority and
an absolute path, which is exactly the shape a JavaScript runtime supplies
as `import.meta.url` for a module loaded from disk. -/
def IsWellFormedFileURL (url : String) : Prop :=
  url.data.take 7 = fileURLPrefix ∧ (url.data.drop 7).head? = some '/'

instance (url : String) : Decidable (IsWellFormedFileURL url) := by
  unfold IsWellFormedFileURL
  infer_instance

/-! ### The Astro/Vite configuration data model

Only the option fields the external build tool understands and that matter
to the claims are represented; a field that the configuration file does not
set is `none`. -/

/-- An Astro integration object, as returned by an integration factory such
as `svelte()`; it is identified by its package name. -/
structure Integration where
  name : String
  deriving DecidableEq, Repr

/-- Modelled from the `@astrojs/svelte` integration factory: called with no
arguments it returns the Svelte integration object. -/
def svelte (_ : Unit) : Integration :=
  { name := "@astrojs/svelte" }

/-- The SCSS preprocessor options object built at lines 15-19 of the
configuration file; all three of its fields are set there. -/
structure ScssOptions where
  api : String
  loadPaths : List String
  additionalData : String
  deriving DecidableEq, Repr

/-- Vite's `css.preprocessorOptions` record: one optional options object per
stylesheet preprocessor. -/
structure PreprocessorOptions where
  scss : Option ScssOptions := none
  sass : Option Unit := none
  less : Option Unit := none
  stylus : Option Unit := none
  deriving DecidableEq, Repr

/-- Vite's `css` options record. -/
structure CssOptions where
  preprocessorOptions : Option PreprocessorOptions := none
  devSourcemap : Option Bool := none
  transformer : Option String := none
  deriving DecidableEq, Repr

/-- The Vite options accepted by Astro's `vite` key; options other than
`css` are presence-only models. -/
structure ViteOptions where
  css : Option CssOptions := none
  plugins : Option (List String) := none
  resolve : Option Unit := none
  server : Option Unit := none
  build : Option Unit := none
  deriving DecidableEq, Repr

/-- The Astro configuration object: the fields the external build tool reads
from the default export, each `none` (or empty) when left unset. -/
structure AstroConfig where
  site : Option String := none
  output : Option String := none
  markdown : Option Unit := none
  server : Option Unit := none
  integrations : List Integration := []
  vite : ViteOptions := {}
  deriving DecidableEq, Repr

/-- Modelled from Astro's `defineConfig` helper (imported from
`astro/config`): per its documentation it returns its argument unchanged and
exists only to provide editor type support. -/
def defineConfig (config : AstroConfig) : AstroConfig :=
  config

/-- The SCSS options reached through `vite.css.preprocessorOptions.scss`,
when every level on the way is present. -/
def AstroConfig.scssOptions (c : AstroConfig) : Option ScssOptions :=
  c.vite.css.bind fun cssOpts =>
    cssOpts.preprocessorOptions.bind fun po => po.scss

/-! ### The configuration module itself -/

/-- The object literal passed to `defineConfig` at lines 10-23 of
`astro.config.mjs`, as a function of the `__dirname` binding computed at
line 7. -/
def configObjectLiteral (__dirname : String) : AstroConfig :=
  { integrations := [svelte ()]
    vite := {
      css := some {
        preprocessorOptions := some {
          scss := some {
            api := "modern-compiler"
            loadPaths := [Path.resolve __dirname "src/styles"]
            additionalData := "@use \"utils\" as *;" } } } } }

/-- Evaluation of the whole module, given its `import.meta.url`: compute
`__dirname = path.dirname(fileURLToPath(import.meta.url))` and export
`defineConfig` applied to the object literal.  The only fallible step is
`fileURLToPath`. -/
def astroConfigModule (url : String) : Option AstroConfig :=
  (fileURLToPath? url).map fun p =>
    defineConfig (configObjectLiteral (Path.dirname p))

/-- Big-step evaluation relation of the module: one rule, mirroring its
single straight-line evaluation path. -/
inductive EvalsTo : String → AstroConfig → Prop where
  | step (url p : String) (h : fileURLToPath? url = some p) :
      EvalsTo url (defineConfig (configObjectLiteral (Path.dirname p)))

/-! ### Metadata model of the provided repository material -/

/-- The three kinds of line a repository file could consist of. -/
inductive FileKind where
  | buildConfiguration
  | documentation
  | systemsLogic
  deriving DecidableEq, Repr

/-- A file of the provided material, with its line count as provided. -/
structure RepoFile where
  name : String
  kind : FileKind
  lineCount : Nat
  deriving DecidableEq, Repr

/-- The two files of the provided material: the 24-line configuration module
and the 288-line markdown conventions document (provided without its
original filename). -/
def repositoryFiles : List RepoFile :=
  [ { name := "astro.config.mjs", kind := .buildConfiguration, lineCount := 24 },
    { name := "unnamed/part_000", kind := .documentation, lineCount := 288 } ]

/-- A markdown document is not executable; the JavaScript configuration
module is. -/
def RepoFile.isExecutable (f : RepoFile) : Bool :=
  match f.kind with
  | .buildConfiguration => true
  | _ => false

/-- Lines of original systems logic contributed by a file: all of them for a
systems-logic file, none for configuration glue or documentation. -/
def RepoFile.systemsLogicLines (f : RepoFile) : Nat :=
  match f.kind with
  | .systemsLogic => f.lineCount
  | _ => 0

/-- Syntactic kinds of top-level statement, including the kinds (awaits,
spawned tasks, resource acquisitions, branches, mutations) that the
configuration module could have contained but does not. -/
inductive StmtKind where
  | staticImport
  | constBinding
  | exportDefaultExpr
  | awaitExpr
  | spawnAsync
  | resourceAcquisition
  | conditionalBranch
  | mutation
  deriving DecidableEq, Repr

/-- Whether a statement kind performs a concurrent or asynchronous
operation. -/
def StmtKind.isConcurrentOrAsync : StmtKind → Bool
  | .awaitExpr => true
  | .spawnAsync => true
  | _ => false

/-- Whether a statement kind acquires a resource (file handle, socket,
lock, ...). -/
def StmtKind.acquiresResource : StmtKind → Bool
  | .resourceAcquisition => true
  | _ => false

/-- Whether a statement kind branches on a condition. -/
def StmtKind.isBranching : StmtKind → Bool
  | .conditionalBranch => true
  | _ => false

/-- Whether a statement kind mutates state. -/
def StmtKind.isMutation : StmtKind → Bool
  | .mutation => true
  | _ => false

/-- The six top-level statements of `astro.config.mjs`, in source order:
four static imports (lines 2-5), one `const` binding (line 7), one default
export of a call expression (lines 10-23). -/
def moduleStatements : List StmtKind :=
  [.staticImport, .staticImport, .staticImport, .staticImport,
   .constBinding, .exportDefaultExpr]

/-! ### Helper lemmas about the path model -/

theorem fileURLToPathChars_some {l r : List Char} (h : fileURLToPathChars l = some r) :
    isAbsoluteChars r = true := by
  unfold fileURLToPathChars at h
  split at h
  · rename_i hc
    cases h
    simp [isAbsoluteChars, hc.2]
  · exact absurd h (by simp)

theorem fileURLToPath?_absolute {url p : String} (h : fileURLToPath? url = some p) :
    Path.isAbsolute p = true := by
  unfold fileURLToPath? at h
  cases hc : fileURLToPathChars url.data with
  | none => rw [hc] at h; simp at h
  | some l =>
    rw [hc] at h
    simp at h
    subst h
    exact fileURLToPathChars_some hc

theorem dirnameChars_absolute {s : List Char} (h : isAbsoluteChars s = true) :
    isAbsoluteChars (dirnameChars s) = true := by
  cases s with
  | nil => simp [isAbsoluteChars] at h
  | cons c t =>
    have hc : c = '/' := by
      simpa [isAbsoluteChars] using h
    subst hc
    cases hd : dropLastSegment t with
    | none => simp [dirnameChars, dropLastSegment, hd, isAbsoluteChars]
    | some d => simp [dirnameChars, dropLastSegment, hd, isAbsoluteChars]

theorem Path.dirname_absolute {s : String} (h : Path.isAbsolute s = true) :
    Path.isAbsolute (Path.dirname s) = true := by
  unfold Path.isAbsolute Path.dirname at *
  exact dirnameChars_absolute h

theorem Path.resolve_absolute {base rel : String} (h : Path.isAbsolute base = true) :
    Path.isAbsolute (Path.resolve base rel) = true := by
  unfold Path.resolve
  split
  · assumption
  · unfold Path.isAbsolute at *
    unfold isAbsoluteChars at *
    cases hb : base.data with
    | nil => rw [hb] at h; simp at h
    | cons c t =>
      rw [hb] at h
      simp at h
      simp [h]

/-! ### The claims -/

/-- C1: the exported configuration's SCSS preprocessor options select the
compiler API mode `modern-compiler`, declare the include search path list,
and set `additionalData` to the global stylesheet use-statement
`@use "utils" as *;` injected into every compiled stylesheet. -/
theorem scss_preprocessor_options_spec (url p : String)
    (h : fileURLToPath? url = some p) :
    ∃ cfg, astroConfigModule url = some cfg ∧
      cfg.scssOptions = some
        { api := "modern-compiler"
          loadPaths := [Path.resolve (Path.dirname p) "src/styles"]
          additionalData := "@use \"utils\" as *;" } := by
  refine ⟨defineConfig (configObjectLiteral (Path.dirname p)), ?_, rfl⟩
  simp [astroConfigModule, h]

theorem scss_preprocessor_options_spec_witness :
    ∃ cfg, astroConfigModule "file:///proj/astro.config.mjs" = some cfg ∧
      cfg.scssOptions = some
        { api := "modern-compiler"
          loadPaths := [Path.resolve (Path.dirname "/proj/astro.config.mjs") "src/styles"]
          additionalData := "@use \"utils\" as *;" } :=
  scss_preprocessor_options_spec "file:///proj/astro.config.mjs"
    "/proj/astro.config.mjs" (by decide)

/-- C2: the integrations list of the exported configuration contains exactly
one element, the value returned by calling the Svelte integration function,
and no other integration. -/
theorem integrations_single_svelte (url p : String)
    (h : fileURLToPath? url = some p) :
    ∃ cfg, astroConfigModule url = some cfg ∧
      cfg.integrations = [svelte ()] ∧ cfg.integrations.length = 1 := by
  refine ⟨defineConfig (configObjectLiteral (Path.dirname p)), ?_, rfl, rfl⟩
  simp [astroConfigModule, h]

theorem integrations_single_svelte_witness :
    ∃ cfg, astroConfigModule "file:///site/astro.config.mjs" = some cfg ∧
      cfg.integrations = [svelte ()] ∧ cfg.integrations.length = 1 :=
  integrations_single_svelte "file:///site/astro.config.mjs"
    "/site/astro.config.mjs" (by decide)

/-- C3: evaluating the configuration module is deterministic: its statements
contain no branch and no mutation, and any two evaluations of the module
with the same module URL yield equal exported configuration objects. -/
theorem module_evaluation_deterministic :
    (moduleStatements.all fun s => !s.isBranching && !s.isMutation) = true ∧
    ∀ (url : String) (c₁ c₂ : AstroConfig),
      EvalsTo url c₁ → EvalsTo url c₂ → c₁ = c₂ := by
  refine ⟨by decide, ?_⟩
  intro url c₁ c₂ h₁ h₂
  cases h₁ with
  | step p₁ hp₁ =>
    cases h₂ with
    | step p₂ hp₂ =>
      obtain rfl : p₁ = p₂ := Option.some.inj (hp₁.symm.trans hp₂)
      rfl

theorem module_evaluation_deterministic_witness :
    defineConfig (configObjectLiteral (Path.dirname "/proj/astro.config.mjs")) =
      defineConfig (configObjectLiteral (Path.dirname "/proj/astro.config.mjs")) :=
  module_evaluation_deterministic.2 "file:///proj/astro.config.mjs" _ _
    (.step _ "/proj/astro.config.mjs" (by decide))
    (.step _ "/proj/astro.config.mjs" (by decide))

/-- C4: the module has no failure branch of its own: for every well-formed
module URL, evaluating the module succeeds and yields a configuration
object. -/
theorem module_evaluation_never_fails (url : String) (h : IsWellFormedFileURL url) :
    ∃ cfg, astroConfigModule url = some cfg := by
  have hf : fileURLToPathChars url.data = some (url.data.drop 7) := by
    unfold IsWellFormedFileURL at h
    unfold fileURLToPathChars
    rw [if_pos h]
  exact ⟨defineConfig (configObjectLiteral (Path.dirname (String.mk (url.data.drop 7)))),
    by simp [astroConfigModule, fileURLToPath?, hf]⟩

theorem module_evaluation_never_fails_witness :
    IsWellFormedFileURL "file:///site/astro.config.mjs" ∧
    ∃ cfg, astroConfigModule "file:///site/astro.config.mjs" = some cfg :=
  ⟨by decide, module_evaluation_never_fails "file:///site/astro.config.mjs" (by decide)⟩

/-- C5: the only executable file of the provided material is the single
configuration module, and the module's entire behaviour is to evaluate to
the constant exported configuration value (the `defineConfig` call on the
object literal), performing no other computation. -/
theorem single_executable_config_module :
    ((repositoryFiles.filter fun f => f.isExecutable).map fun f => f.name)
        = ["astro.config.mjs"] ∧
    ∀ (url : String) (c : AstroConfig), EvalsTo url c →
      ∃ p, fileURLToPath? url = some p ∧
        c = defineConfig (configObjectLiteral (Path.dirname p)) := by
  refine ⟨rfl, ?_⟩
  intro url c h
  cases h with
  | step p hp => exact ⟨p, hp, rfl⟩

theorem single_executable_config_module_witness :
    ((repositoryFiles.filter fun f => f.isExecutable).map fun f => f.name)
        = ["astro.config.mjs"] ∧
    ∃ p, fileURLToPath? "file:///app/astro.config.mjs" = some p ∧
      defineConfig (configObjectLiteral (Path.dirname "/app/astro.config.mjs")) =
        defineConfig (configObjectLiteral (Path.dirname p)) :=
  ⟨single_executable_config_module.1,
   single_executable_config_module.2 "file:///app/astro.config.mjs" _
     (.step _ "/app/astro.config.mjs" (by decide))⟩

/-- C6: the provided material totals exactly 312 lines, every file of it is
configuration glue or documentation, and it contributes zero lines of
original systems logic. -/
theorem repository_line_budget :
    ((repositoryFiles.map fun f => f.lineCount).sum = 312) ∧
    ((repositoryFiles.map fun f => f.systemsLogicLines).sum = 0) ∧
    (repositoryFiles.all fun f => decide (f.kind ≠ FileKind.systemsLogic)) = true := by
  decide

/-- C7: no statement of the configuration module performs a concurrent or
asynchronous operation, and none acquires a resource. -/
theorem no_concurrency_or_resources :
    (moduleStatements.all fun s =>
      !s.isConcurrentOrAsync && !s.acquiresResource) = true := by
  decide

/-- C8: the declared `loadPaths` list contains exactly one entry, the
absolute path obtained by resolving the relative path `src/styles` against
the directory containing the configuration file itself. -/
theorem loadPaths_single_absolute_entry (url p : String)
    (h : fileURLToPath? url = some p) :
    ∃ cfg opts, astroConfigModule url = some cfg ∧
      cfg.scssOptions = some opts ∧
      opts.loadPaths = [Path.resolve (Path.dirname p) "src/styles"] ∧
      opts.loadPaths.length = 1 ∧
      ∀ q ∈ opts.loadPaths, Path.isAbsolute q = true := by
  have habs : Path.isAbsolute p = true := fileURLToPath?_absolute h
  refine ⟨defineConfig (configObjectLiteral (Path.dirname p)),
    { api := "modern-compiler"
      loadPaths := [Path.resolve (Path.dirname p) "src/styles"]
      additionalData := "@use \"utils\" as *;" }, ?_, rfl, rfl, rfl, ?_⟩
  · simp [astroConfigModule, h]
  · intro q hq
    rw [List.mem_singleton] at hq
    subst hq
    exact Path.resolve_absolute (Path.dirname_absolute habs)

theorem loadPaths_single_absolute_entry_witness :
    ∃ cfg opts, astroConfigModule "file:///repo/astro.config.mjs" = some cfg ∧
      cfg.scssOptions = some opts ∧
      opts.loadPaths = [Path.resolve (Path.dirname "/repo/astro.config.mjs") "src/styles"] ∧
      opts.loadPaths.length = 1 ∧
      ∀ q ∈ opts.loadPaths, Path.isAbsolute q = true :=
  loadPaths_single_absolute_entry "file:///repo/astro.config.mjs"
    "/repo/astro.config.mjs" (by decide)

/-- C9: the `defineConfig` wrapper acts as the identity on its argument, so
the module's exported value equals the literal configuration object passed
to it, field for field. -/
theorem defineConfig_identity :
    (∀ c : AstroConfig, defineConfig c = c) ∧
    ∀ (url p : String), fileURLToPath? url = some p →
      astroConfigModule url = some (configObjectLiteral (Path.dirname p)) := by
  refine ⟨fun c => rfl, ?_⟩
  intro url p h
  simp [astroConfigModule, h, defineConfig]

theorem defineConfig_identity_witness :
    defineConfig (configObjectLiteral "/demo") = configObjectLiteral "/demo" ∧
    astroConfigModule "file:///demo/astro.config.mjs" =
      some (configObjectLiteral (Path.dirname "/demo/astro.config.mjs")) :=
  ⟨defineConfig_identity.1 (configObjectLiteral "/demo"),
   defineConfig_identity.2 "file:///demo/astro.config.mjs"
     "/demo/astro.config.mjs" (by decide)⟩

/-- C10: the exported configuration sets only the `integrations` field and
the SCSS entry under `vite.css.preprocessorOptions`; every other modelled
configuration field (site, output, markdown, server, the remaining vite and
css options, and the other preprocessors) is absent. -/
theorem only_declared_fields_present (url p : String)
    (h : fileURLToPath? url = some p) :
    ∃ cfg, astroConfigModule url = some cfg ∧
      cfg.integrations ≠ [] ∧
      cfg.scssOptions.isSome = true ∧
      cfg.site = none ∧ cfg.output = none ∧ cfg.markdown = none ∧
      cfg.server = none ∧
      cfg.vite.plugins = none ∧ cfg.vite.resolve = none ∧
      cfg.vite.server = none ∧ cfg.vite.build = none ∧
      (cfg.vite.css.map fun c => c.devSourcemap) = some none ∧
      (cfg.vite.css.map fun c => c.transformer) = some none ∧
      ((cfg.vite.css.bind fun c => c.preprocessorOptions).map
          fun po => (po.sass, po.less, po.stylus)) = some (none, none, none) := by
  refine ⟨defineConfig (configObjectLiteral (Path.dirname p)), ?_, ?_,
    rfl, rfl, rfl, rfl, rfl, rfl, rfl, rfl, rfl, rfl, rfl, rfl⟩
  · simp [astroConfigModule, h]
  · simp [defineConfig, configObjectLiteral]

theorem only_declared_fields_present_witness :
    ∃ cfg, astroConfigModule "file:///www/astro.config.mjs" = some cfg ∧
      cfg.integrations ≠ [] ∧
      cfg.scssOptions.isSome = true ∧
      cfg.site = none ∧ cfg.output = none ∧ cfg.markdown = none ∧
      cfg.server = none ∧
      cfg.vite.plugins = none ∧ cfg.vite.resolve = none ∧
      cfg.vite.server = none ∧ cfg.vite.build = none ∧
      (cfg.vite.css.map fun c => c.devSourcemap) = some none ∧
      (cfg.vite.css.map fun c => c.transformer) = some none ∧
      ((cfg.vite.css.bind fun c => c.preprocessorOptions).map
          fun po => (po.sass, po.less, po.stylus)) = some (none, none, none) :=
  only_declared_fields_present "file:///www/astro.config.mjs"
    "/www/astro.config.mjs" (by decide)

end AstroTemplate
